import Mathlib

/-!
Verification of the table-variable access method's tuple-visibility core
(`contrib/table_variable_am`): the MVCC visibility procedure
`TVHeapTupleSatisfiesMVCC`, the update-conflict procedure
`TVHeapTupleSatisfiesUpdate`, and the storage-creation hook
`tv_heapam_relation_set_new_filenode`, embedded shallowly.  External
collaborators (transaction-status tracking, multixact membership, snapshot
membership) are modelled as an injected oracle structure of functions, as the
code consumes them as black boxes.
-/

namespace TV

abbrev TransactionId := Nat
abbrev CommandId := Nat
abbrev MultiXactId := Nat

def InvalidTransactionId : TransactionId := 0

/-- Model of `TransactionIdIsValid`: any xid other than the zero sentinel. -/
def TransactionIdIsValid (xid : TransactionId) : Bool := xid != InvalidTransactionId

/-- Model of `ItemPointerData`: block number plus offset number, the identity of a row
version on disk. -/
structure ItemPointer where
  blockNumber : Nat
  offsetNumber : Nat
deriving DecidableEq, Repr

/-- Model of `ItemPointerEquals`. -/
def ItemPointerEquals (a b : ItemPointer) : Bool := a = b

/-- The `t_infomask` status bits the visibility code reads, one field per bit
(HEAP_XMIN_COMMITTED, HEAP_XMIN_INVALID, HEAP_XMAX_COMMITTED,
HEAP_XMAX_INVALID, HEAP_XMAX_IS_MULTI, HEAP_XMAX_LOCK_ONLY,
HEAP_XMAX_EXCL_LOCK, HEAP_XMAX_KEYSHR_LOCK). -/
structure InfoMask where
  xminCommitted : Bool
  xminInvalid : Bool
  xmaxCommitted : Bool
  xmaxInvalid : Bool
  xmaxIsMulti : Bool
  xmaxLockOnly : Bool
  xmaxExclLock : Bool
  xmaxKeyshrLock : Bool
deriving DecidableEq, Repr

/-- Modelled from the spec: the host engine's header macro
`HEAP_XMAX_IS_LOCKED_ONLY` (the "deleter-is-lock-only" status bit of the data
model) — the lock-only bit is set, or the pre-upgrade pattern of a plain xmax
holding an exclusive lock with no keyshare bit. -/
def HEAP_XMAX_IS_LOCKED_ONLY (im : InfoMask) : Bool :=
  im.xmaxLockOnly || (!im.xmaxIsMulti && im.xmaxExclLock && !im.xmaxKeyshrLock)

/-- Modelled from the spec: the host engine's header macro
`HEAP_LOCKED_UPGRADED` — a multixact xmax carrying only the lock-only bit with
neither specific lock-strength bit, i.e. a lock marker upgraded from an old
format that can never contain an update. -/
def HEAP_LOCKED_UPGRADED (im : InfoMask) : Bool :=
  im.xmaxIsMulti && im.xmaxLockOnly && !im.xmaxExclLock && !im.xmaxKeyshrLock

/-- The row-version header fields the oracles read: raw xmin/xmax, the two
command ids, the status bits and the update-chain pointer `t_ctid`. -/
structure HeapTupleHeader where
  infomask : InfoMask
  rawXmin : TransactionId
  rawXmax : TransactionId
  cmin : CommandId
  cmax : CommandId
  ctid : ItemPointer
deriving DecidableEq, Repr

/-- Model of `HeapTupleData`: the header plus the tuple's own identity (`t_self`) and
owning relation. -/
structure HeapTuple where
  t_data : HeapTupleHeader
  t_self : ItemPointer
  t_tableOid : Nat
deriving DecidableEq, Repr

/-- Model of `HeapTupleHeaderXminCommitted`: the committed hint bit is set. -/
def HeapTupleHeaderXminCommitted (t : HeapTupleHeader) : Bool :=
  t.infomask.xminCommitted

/-- Model of `HeapTupleHeaderXminInvalid`: the invalid hint bit is set and the
committed hint bit is not (both together mean frozen, not invalid). -/
def HeapTupleHeaderXminInvalid (t : HeapTupleHeader) : Bool :=
  !t.infomask.xminCommitted && t.infomask.xminInvalid

/-- Model of `HeapTupleHeaderXminFrozen`: both xmin hint bits set. -/
def HeapTupleHeaderXminFrozen (t : HeapTupleHeader) : Bool :=
  t.infomask.xminCommitted && t.infomask.xminInvalid

inductive SnapshotType where
  | mvcc | any | self | toast | dirty | historicMvcc | nonVacuumable
deriving DecidableEq, Repr

/-- A snapshot: its kind tag, its command-id boundary, and the opaque
`XidInMVCCSnapshot` membership predicate. -/
structure Snapshot where
  snapshot_type : SnapshotType
  curcid : CommandId
  inSnapshot : TransactionId → Bool

/-- The external transaction-status and multixact oracles, injected as
black-box collaborators: current-transaction test, commit test, in-progress
test, multixact running-member test (second argument is the `isLockOnly`
flag), effective update-xid extraction from a multixact
(`HeapTupleGetUpdateXid`), and the two storage-creation horizons
(`RecentXmin`, `GetOldestMultiXactId`). -/
structure TxOracle where
  isCurrent : TransactionId → Bool
  didCommit : TransactionId → Bool
  isInProgress : TransactionId → Bool
  multiIsRunning : MultiXactId → Bool → Bool
  multiUpdateXid : MultiXactId → TransactionId
  recentXmin : TransactionId
  oldestMultiXactId : MultiXactId

/-- Embedding of `TVHeapTupleSatisfiesAny`: every tuple satisfies an ANY snapshot. -/
def TVHeapTupleSatisfiesAny (_htup : HeapTuple) (_s : Snapshot) : Bool := true

/-- The xmax-evaluation suffix of `TVHeapTupleSatisfiesMVCC` (source lines
following the "by here, the inserting transaction has committed" comment).
It reads only the status bits, the raw xmax and cmax of the header, never the
xmin side. -/
def mvccXmaxCheck (o : TxOracle) (im : InfoMask) (rawXmax : TransactionId)
    (cmax : CommandId) (s : Snapshot) : Bool :=
  if im.xmaxInvalid then true
  else if HEAP_XMAX_IS_LOCKED_ONLY im then true
  else if im.xmaxIsMulti then
    let xmax := o.multiUpdateXid rawXmax
    if o.isCurrent xmax then
      if cmax >= s.curcid then true   -- deleted after scan started
      else false                      -- deleted before scan started
    else if s.inSnapshot xmax then true
    else if o.didCommit xmax then false   -- updating transaction committed
    else true                             -- it must have aborted or crashed
  else if !im.xmaxCommitted then
    if o.isCurrent rawXmax then
      if cmax >= s.curcid then true   -- deleted after scan started
      else false                      -- deleted before scan started
    else if s.inSnapshot rawXmax then true
    else if !o.didCommit rawXmax then
      -- xmax must have aborted or crashed; the rollback-insensitive AM keeps
      -- the delete standing (the hint write and `return true` are commented
      -- out in the source)
      false
    else
      -- xmax transaction committed: fall through to the final return
      false
  else
    -- xmax hinted committed, but maybe not according to our snapshot
    if s.inSnapshot rawXmax then true   -- treat as still in progress
    else false

/-- Embedding of `TVHeapTupleSatisfiesMVCC`: the rollback-insensitive MVCC visibility
procedure.  Note that both the inserter-committed and the
inserter-aborted/crashed outcomes of the unresolved-xmin classification fall
through to the xmax evaluation (the hint writes and the aborted-path
`return false` of the stock engine are commented out in the source). -/
def TVHeapTupleSatisfiesMVCC (o : TxOracle) (htup : HeapTuple) (s : Snapshot) : Bool :=
  let tuple := htup.t_data
  if !HeapTupleHeaderXminCommitted tuple then
    if HeapTupleHeaderXminInvalid tuple then false
    else if o.isCurrent tuple.rawXmin then
      if tuple.cmin >= s.curcid then false   -- inserted after scan started
      else if tuple.infomask.xmaxInvalid then true
      else if HEAP_XMAX_IS_LOCKED_ONLY tuple.infomask then true
      else if tuple.infomask.xmaxIsMulti then
        let xmax := o.multiUpdateXid tuple.rawXmax
        -- updating subtransaction must have aborted
        if !o.isCurrent xmax then true
        else if tuple.cmax >= s.curcid then true   -- updated after scan started
        else false                                 -- updated before scan started
      else if !o.isCurrent tuple.rawXmax then
        -- deleting subtransaction must have aborted; the rollback-insensitive
        -- AM hides the row instead of exposing it
        false
      else if tuple.cmax >= s.curcid then true   -- deleted after scan started
      else false                                 -- deleted before scan started
    else if s.inSnapshot tuple.rawXmin then false
    else
      -- whether xmin committed or aborted/crashed, control falls through to
      -- the xmax evaluation
      mvccXmaxCheck o tuple.infomask tuple.rawXmax tuple.cmax s
  else
    -- xmin hinted committed, but maybe not according to our snapshot
    if !HeapTupleHeaderXminFrozen tuple && s.inSnapshot tuple.rawXmin then false
    else mvccXmaxCheck o tuple.infomask tuple.rawXmax tuple.cmax s

/-- Embedding of `TVHeapTupleSatisfiesVisibility`: dispatch on the snapshot kind; only MVCC
and ANY are supported, every other kind warns and reports not visible. -/
def TVHeapTupleSatisfiesVisibility (o : TxOracle) (tup : HeapTuple) (s : Snapshot) : Bool :=
  match s.snapshot_type with
  | .mvcc => TVHeapTupleSatisfiesMVCC o tup s
  | .any => TVHeapTupleSatisfiesAny tup s
  | _ => false

inductive TMResult where
  | Ok | Invisible | SelfModified | BeingModified | Updated | Deleted
deriving DecidableEq, Repr

/-- The two error conditions the lifecycle hook and the update oracle can
raise: the feature-not-supported user error of storage creation, and the
fatal `ereport(PANIC, "Table Variable AM should not get here")`. -/
inductive PgError where
  | featureNotSupported
  | internalPanic
deriving DecidableEq, Repr

/-- The xmax-evaluation suffix of `TVHeapTupleSatisfiesUpdate` (source lines
following the "by here, the inserting transaction has committed" comment). -/
def updateXmaxCheck (o : TxOracle) (htup : HeapTuple) (curcid : CommandId) :
    Except PgError TMResult :=
  let tuple := htup.t_data
  if tuple.infomask.xmaxInvalid then .ok .Ok
  else if tuple.infomask.xmaxCommitted then
    if HEAP_XMAX_IS_LOCKED_ONLY tuple.infomask then .ok .Ok
    else if !ItemPointerEquals htup.t_self tuple.ctid then .ok .Updated
    else .ok .Deleted
  else if tuple.infomask.xmaxIsMulti then
    if HEAP_LOCKED_UPGRADED tuple.infomask then .ok .Ok
    else if HEAP_XMAX_IS_LOCKED_ONLY tuple.infomask then
      if o.multiIsRunning tuple.rawXmax true then .ok .BeingModified
      else .ok .Ok
    else
      let xmax := o.multiUpdateXid tuple.rawXmax
      -- when the update xid is invalid but some member is still running the
      -- source returns early; otherwise it falls past a disabled assertion
      -- into the checks below
      if !TransactionIdIsValid xmax && o.multiIsRunning tuple.rawXmax false then
        .ok .BeingModified
      else if o.isCurrent xmax then
        if tuple.cmax >= curcid then .ok .SelfModified   -- updated after scan started
        else .ok .Invisible                              -- updated before scan started
      else if o.multiIsRunning tuple.rawXmax false then .ok .BeingModified
      else if o.didCommit xmax then
        if !ItemPointerEquals htup.t_self tuple.ctid then .ok .Updated
        else .ok .Deleted
      else if !o.multiIsRunning tuple.rawXmax false then
        -- no member, even just a locker, alive anymore
        .ok .Ok
      else .ok .BeingModified   -- there are lockers running
  else if o.isCurrent tuple.rawXmax then
    if HEAP_XMAX_IS_LOCKED_ONLY tuple.infomask then .ok .BeingModified
    else if tuple.cmax >= curcid then .ok .SelfModified   -- updated after scan started
    else .ok .Invisible                                   -- updated before scan started
  else if o.isInProgress tuple.rawXmax then .ok .BeingModified
  else if !o.didCommit tuple.rawXmax then
    -- it must have aborted or crashed; the rollback-insensitive AM treats the
    -- delete as standing instead of clearing the xmax
    if !ItemPointerEquals htup.t_self tuple.ctid then .ok .Updated
    else .ok .Deleted
  else if HEAP_XMAX_IS_LOCKED_ONLY tuple.infomask then .ok .Ok
  else if !ItemPointerEquals htup.t_self tuple.ctid then .ok .Updated   -- updated by other
  else .ok .Deleted                                                     -- deleted by other

/-- Embedding of `TVHeapTupleSatisfiesUpdate`: the rollback-insensitive update-conflict
procedure.  The one non-returning path — a multixact deleter whose effective
update xid is not the current transaction, reached under a self-inserted
unresolved xmin — raises the fatal internal panic, modelled as the error
branch of `Except`. -/
def TVHeapTupleSatisfiesUpdate (o : TxOracle) (htup : HeapTuple) (curcid : CommandId) :
    Except PgError TMResult :=
  let tuple := htup.t_data
  if !HeapTupleHeaderXminCommitted tuple then
    if HeapTupleHeaderXminInvalid tuple then .ok .Invisible
    else if o.isCurrent tuple.rawXmin then
      if tuple.cmin >= curcid then .ok .Invisible   -- inserted after scan started
      else if tuple.infomask.xmaxInvalid then .ok .Ok
      else if HEAP_XMAX_IS_LOCKED_ONLY tuple.infomask then
        let xmax := tuple.rawXmax
        if tuple.infomask.xmaxIsMulti then
          if o.multiIsRunning xmax true then .ok .BeingModified
          else .ok .Ok
        else if !o.isInProgress xmax then .ok .Ok
        else .ok .BeingModified
      else if tuple.infomask.xmaxIsMulti then
        let xmax := o.multiUpdateXid tuple.rawXmax
        if !o.isCurrent xmax then
          -- ereport(PANIC, "Table Variable AM should not get here")
          .error .internalPanic
        else if tuple.cmax >= curcid then .ok .SelfModified   -- updated after scan started
        else .ok .Invisible                                   -- updated before scan started
      else if !o.isCurrent tuple.rawXmax then
        -- deleting subtransaction must have aborted; the rollback-insensitive
        -- AM reports the row invisible instead of clearing the xmax
        .ok .Invisible
      else if tuple.cmax >= curcid then .ok .SelfModified   -- updated after scan started
      else .ok .Invisible                                   -- updated before scan started
    else if o.isInProgress tuple.rawXmin then .ok .Invisible
    else if o.didCommit tuple.rawXmin then
      updateXmaxCheck o htup curcid
    else
      -- it must have aborted or crashed; the rollback-insensitive AM keeps
      -- the row live instead of reporting it invisible
      .ok .Ok
  else
    updateXmaxCheck o htup curcid

inductive Persistence where
  | temp | unlogged | permanent
deriving DecidableEq, Repr

/-- A relation's physical file identity. -/
structure RelFileNode where
  spcNode : Nat
  dbNode : Nat
  relNode : Nat
deriving DecidableEq, Repr

/-- The observable effects of the storage-creation hook: the two output
parameters (unwritten = `none`) and the storage-manager state — each created
storage recorded with its persistence and its delete-on-abort flag, plus the
init forks created and synced for unlogged relations. -/
structure SMgrState where
  freezeXid : Option TransactionId
  minmulti : Option MultiXactId
  createdStorage : List (RelFileNode × Persistence × Bool)
  initForks : List RelFileNode
deriving DecidableEq, Repr

/-- Embedding of `tv_heapam_relation_set_new_filenode`: reject every persistence class but
TEMP with a feature-not-supported error raised before any write; otherwise set
the freeze horizon to `RecentXmin`, the minimum multixact to
`GetOldestMultiXactId()`, and create the storage with delete-on-abort
disabled (`false`).  The unlogged init-fork branch is kept although the guard
makes it dead. -/
def tv_heapam_relation_set_new_filenode (o : TxOracle) (newrnode : RelFileNode)
    (persistence : Persistence) (st : SMgrState) : Except PgError Unit × SMgrState :=
  if persistence ≠ .temp then
    (.error .featureNotSupported, st)
  else
    let st1 := { st with freezeXid := some o.recentXmin }
    let st2 := { st1 with minmulti := some o.oldestMultiXactId }
    let st3 := { st2 with
      createdStorage := st2.createdStorage ++ [(newrnode, persistence, false)] }
    let st4 :=
      if persistence = .unlogged then
        { st3 with initForks := st3.initForks ++ [newrnode] }
      else st3
    (.ok (), st4)

/-! ## Theorems about the oracles -/

/-- C1 (as stated, refuted below; this is the amended claim): when the
inserter-committed hint is unset, the inserting xid has no invalid hint, is
not the current transaction, is not in-progress per the snapshot, and did not
commit, `TVHeapTupleSatisfiesMVCC` does not return false outright — it falls
through to the xmax evaluation exactly as if the insert had committed, so the
verdict is whatever the deleter field dictates. -/
theorem mvcc_aborted_inserter_falls_through (o : TxOracle) (t : HeapTuple)
    (s : Snapshot)
    (h1 : HeapTupleHeaderXminCommitted t.t_data = false)
    (h2 : HeapTupleHeaderXminInvalid t.t_data = false)
    (h3 : o.isCurrent t.t_data.rawXmin = false)
    (h4 : s.inSnapshot t.t_data.rawXmin = false)
    (h5 : o.didCommit t.t_data.rawXmin = false) :
    TVHeapTupleSatisfiesMVCC o t s =
      mvccXmaxCheck o t.t_data.infomask t.t_data.rawXmax t.t_data.cmax s := by
  unfold TVHeapTupleSatisfiesMVCC
  simp [h1, h2, h3, h4, h5]

def c1oracle : TxOracle :=
  { isCurrent := fun _ => false
    didCommit := fun _ => false
    isInProgress := fun _ => false
    multiIsRunning := fun _ _ => false
    multiUpdateXid := fun _ => 0
    recentXmin := 1
    oldestMultiXactId := 1 }

def c1tuple : HeapTuple :=
  { t_data :=
      { infomask :=
          { xminCommitted := false, xminInvalid := false
            xmaxCommitted := false, xmaxInvalid := true
            xmaxIsMulti := false, xmaxLockOnly := false
            xmaxExclLock := false, xmaxKeyshrLock := false }
        rawXmin := 5, rawXmax := 0, cmin := 0, cmax := 0
        ctid := { blockNumber := 0, offsetNumber := 1 } }
    t_self := { blockNumber := 0, offsetNumber := 1 }
    t_tableOid := 1 }

def c1snap : Snapshot :=
  { snapshot_type := .mvcc, curcid := 1, inSnapshot := fun _ => false }

/-- C1 counterexample: a tuple whose inserter (xid 5) has no hint bits, is
not current, not in the snapshot and did not commit — all of the claim's
hypotheses hold — yet, because the tuple has no deleter, the oracle returns
true, not the false the claim demands. -/
theorem mvcc_aborted_inserter_cex :
    HeapTupleHeaderXminCommitted c1tuple.t_data = false ∧
    HeapTupleHeaderXminInvalid c1tuple.t_data = false ∧
    c1oracle.isCurrent c1tuple.t_data.rawXmin = false ∧
    c1snap.inSnapshot c1tuple.t_data.rawXmin = false ∧
    c1oracle.didCommit c1tuple.t_data.rawXmin = false ∧
    TVHeapTupleSatisfiesMVCC c1oracle c1tuple c1snap = true :=
  ⟨rfl, rfl, rfl, rfl, rfl, rfl⟩

/-- Witness for the amended C1 at the concrete aborted-inserter tuple. -/
theorem mvcc_aborted_inserter_falls_through_witness :
    TVHeapTupleSatisfiesMVCC c1oracle c1tuple c1snap =
      mvccXmaxCheck c1oracle c1tuple.t_data.infomask c1tuple.t_data.rawXmax
        c1tuple.t_data.cmax c1snap :=
  mvcc_aborted_inserter_falls_through c1oracle c1tuple c1snap rfl rfl rfl rfl rfl

/-- C2 (as stated, refuted below; this is the amended claim): with the
inserter-committed hint unset, no invalid hint, the inserter the current
transaction, `insertCid < curcid`, and the deleter a valid, not lock-only
multixact whose effective update-xid is not the current transaction,
`TVHeapTupleSatisfiesMVCC` returns true (visible, the stock
aborted-updating-subtransaction rule) — it does not raise a fatal error; the
fatal panic exists only in `TVHeapTupleSatisfiesUpdate`. -/
theorem mvcc_foreign_multi_deleter_visible (o : TxOracle) (t : HeapTuple)
    (s : Snapshot)
    (h1 : HeapTupleHeaderXminCommitted t.t_data = false)
    (h2 : HeapTupleHeaderXminInvalid t.t_data = false)
    (h3 : o.isCurrent t.t_data.rawXmin = true)
    (h4 : t.t_data.cmin < s.curcid)
    (h5 : t.t_data.infomask.xmaxInvalid = false)
    (h6 : HEAP_XMAX_IS_LOCKED_ONLY t.t_data.infomask = false)
    (h7 : t.t_data.infomask.xmaxIsMulti = true)
    (h8 : TransactionIdIsValid (o.multiUpdateXid t.t_data.rawXmax) = true)
    (h9 : o.isCurrent (o.multiUpdateXid t.t_data.rawXmax) = false) :
    TVHeapTupleSatisfiesMVCC o t s = true := by
  unfold TVHeapTupleSatisfiesMVCC
  simp [h1, h2, h3, h5, h6, h7, h9, Nat.not_le.mpr h4]

def c2oracle : TxOracle :=
  { isCurrent := fun x => x == 5
    didCommit := fun _ => false
    isInProgress := fun _ => false
    multiIsRunning := fun _ _ => false
    multiUpdateXid := fun _ => 9
    recentXmin := 1
    oldestMultiXactId := 1 }

def c2tuple : HeapTuple :=
  { t_data :=
      { infomask :=
          { xminCommitted := false, xminInvalid := false
            xmaxCommitted := false, xmaxInvalid := false
            xmaxIsMulti := true, xmaxLockOnly := false
            xmaxExclLock := false, xmaxKeyshrLock := false }
        rawXmin := 5, rawXmax := 7, cmin := 0, cmax := 0
        ctid := { blockNumber := 0, offsetNumber := 1 } }
    t_self := { blockNumber := 0, offsetNumber := 1 }
    t_tableOid := 1 }

def c2snap : Snapshot :=
  { snapshot_type := .mvcc, curcid := 1, inSnapshot := fun _ => false }

/-- C2 counterexample: all of the claim's hypotheses hold at this concrete
input (self-inserted tuple, multixact deleter with effective update-xid 9 not
current), yet the visibility oracle returns the verdict true rather than
raising any fatal error — its codomain has no error outcome at all. -/
theorem mvcc_foreign_multi_deleter_cex :
    HeapTupleHeaderXminCommitted c2tuple.t_data = false ∧
    c2oracle.isCurrent c2tuple.t_data.rawXmin = true ∧
    c2tuple.t_data.cmin < c2snap.curcid ∧
    c2tuple.t_data.infomask.xmaxInvalid = false ∧
    HEAP_XMAX_IS_LOCKED_ONLY c2tuple.t_data.infomask = false ∧
    c2tuple.t_data.infomask.xmaxIsMulti = true ∧
    c2oracle.isCurrent (c2oracle.multiUpdateXid c2tuple.t_data.rawXmax) = false ∧
    TVHeapTupleSatisfiesMVCC c2oracle c2tuple c2snap = true :=
  ⟨rfl, rfl, Nat.zero_lt_one, rfl, rfl, rfl, rfl, rfl⟩

/-- Witness for the amended C2 at the concrete foreign-multi-deleter tuple. -/
theorem mvcc_foreign_multi_deleter_visible_witness :
    TVHeapTupleSatisfiesMVCC c2oracle c2tuple c2snap = true :=
  mvcc_foreign_multi_deleter_visible c2oracle c2tuple c2snap rfl rfl rfl
    Nat.zero_lt_one rfl rfl rfl rfl rfl

/-- C3: with the inserter-committed hint unset, no invalid hint, the inserter
the current transaction, `insertCid < curcid`, and the deleter a valid,
not lock-only multixact, `TVHeapTupleSatisfiesUpdate` raises the fatal
internal panic when the multi's effective update-xid is not the current
transaction, and otherwise returns SelfModified when `deleteCid >= curcid`
and Invisible when not. -/
theorem update_foreign_multi_deleter_panics (o : TxOracle) (t : HeapTuple)
    (curcid : CommandId)
    (h1 : HeapTupleHeaderXminCommitted t.t_data = false)
    (h2 : HeapTupleHeaderXminInvalid t.t_data = false)
    (h3 : o.isCurrent t.t_data.rawXmin = true)
    (h4 : t.t_data.cmin < curcid)
    (h5 : t.t_data.infomask.xmaxInvalid = false)
    (h6 : HEAP_XMAX_IS_LOCKED_ONLY t.t_data.infomask = false)
    (h7 : t.t_data.infomask.xmaxIsMulti = true)
    (h8 : TransactionIdIsValid (o.multiUpdateXid t.t_data.rawXmax) = true) :
    TVHeapTupleSatisfiesUpdate o t curcid =
      if o.isCurrent (o.multiUpdateXid t.t_data.rawXmax) then
        if t.t_data.cmax >= curcid then .ok .SelfModified else .ok .Invisible
      else .error .internalPanic := by
  unfold TVHeapTupleSatisfiesUpdate
  simp [h1, h2, h3, h5, h6, h7, Nat.not_le.mpr h4]
  cases hc : o.isCurrent (o.multiUpdateXid t.t_data.rawXmax) <;> simp [hc]

def c3oracle : TxOracle :=
  { isCurrent := fun x => x == 5
    didCommit := fun _ => false
    isInProgress := fun _ => false
    multiIsRunning := fun _ _ => false
    multiUpdateXid := fun _ => 9
    recentXmin := 1
    oldestMultiXactId := 1 }

def c3tuple : HeapTuple :=
  { t_data :=
      { infomask :=
          { xminCommitted := false, xminInvalid := false
            xmaxCommitted := false, xmaxInvalid := false
            xmaxIsMulti := true, xmaxLockOnly := false
            xmaxExclLock := false, xmaxKeyshrLock := false }
        rawXmin := 5, rawXmax := 7, cmin := 0, cmax := 0
        ctid := { blockNumber := 0, offsetNumber := 1 } }
    t_self := { blockNumber := 0, offsetNumber := 1 }
    t_tableOid := 1 }

/-- Witness for C3: at the concrete foreign-multi-deleter tuple the update
oracle raises the fatal internal panic. -/
theorem update_foreign_multi_deleter_panics_witness :
    TVHeapTupleSatisfiesUpdate c3oracle c3tuple 1 = .error .internalPanic :=
  update_foreign_multi_deleter_panics c3oracle c3tuple 1 rfl rfl rfl
    Nat.zero_lt_one rfl rfl rfl rfl

/-- C4: with the inserter-committed hint unset, no invalid hint, the inserter
neither the current transaction, nor in-progress, nor committed (aborted or
crashed), `TVHeapTupleSatisfiesUpdate` returns Ok — for every deleter
configuration, since the tuple's xmax side is universally quantified here. -/
theorem update_aborted_inserter_ok (o : TxOracle) (t : HeapTuple)
    (curcid : CommandId)
    (h1 : HeapTupleHeaderXminCommitted t.t_data = false)
    (h2 : HeapTupleHeaderXminInvalid t.t_data = false)
    (h3 : o.isCurrent t.t_data.rawXmin = false)
    (h4 : o.isInProgress t.t_data.rawXmin = false)
    (h5 : o.didCommit t.t_data.rawXmin = false) :
    TVHeapTupleSatisfiesUpdate o t curcid = .ok .Ok := by
  unfold TVHeapTupleSatisfiesUpdate
  simp [h1, h2, h3, h4, h5]

def c4oracle : TxOracle :=
  { isCurrent := fun _ => false
    didCommit := fun _ => false
    isInProgress := fun _ => false
    multiIsRunning := fun _ _ => false
    multiUpdateXid := fun _ => 0
    recentXmin := 1
    oldestMultiXactId := 1 }

def c4tuple : HeapTuple :=
  { t_data :=
      { infomask :=
          { xminCommitted := false, xminInvalid := false
            xmaxCommitted := false, xmaxInvalid := false
            xmaxIsMulti := false, xmaxLockOnly := false
            xmaxExclLock := false, xmaxKeyshrLock := false }
        rawXmin := 5, rawXmax := 6, cmin := 0, cmax := 0
        ctid := { blockNumber := 0, offsetNumber := 1 } }
    t_self := { blockNumber := 0, offsetNumber := 1 }
    t_tableOid := 1 }

/-- Witness for C4: a tuple whose inserter aborted (per the oracle) and that
even carries a plain deleter xid is still reported Ok. -/
theorem update_aborted_inserter_ok_witness :
    TVHeapTupleSatisfiesUpdate c4oracle c4tuple 1 = .ok .Ok :=
  update_aborted_inserter_ok c4oracle c4tuple 1 rfl rfl rfl rfl rfl

/-- C5: once the inserter is treated as committed (committed hint set and the
snapshot does not count it in-progress), a valid plain deleter with no
committed hint that is not current, not in the snapshot and did not commit
leaves the row hidden: `TVHeapTupleSatisfiesMVCC` returns false. -/
theorem mvcc_uncommitted_plain_deleter_hidden (o : TxOracle) (t : HeapTuple)
    (s : Snapshot)
    (h1 : HeapTupleHeaderXminCommitted t.t_data = true)
    (h2 : s.inSnapshot t.t_data.rawXmin = false)
    (h3 : t.t_data.infomask.xmaxInvalid = false)
    (h4 : HEAP_XMAX_IS_LOCKED_ONLY t.t_data.infomask = false)
    (h5 : t.t_data.infomask.xmaxIsMulti = false)
    (h6 : t.t_data.infomask.xmaxCommitted = false)
    (h7 : TransactionIdIsValid t.t_data.rawXmax = true)
    (h8 : o.isCurrent t.t_data.rawXmax = false)
    (h9 : s.inSnapshot t.t_data.rawXmax = false)
    (h10 : o.didCommit t.t_data.rawXmax = false) :
    TVHeapTupleSatisfiesMVCC o t s = false := by
  unfold TVHeapTupleSatisfiesMVCC mvccXmaxCheck
  simp [h1, h2, h3, h4, h5, h6, h8, h9, h10]

def c5oracle : TxOracle :=
  { isCurrent := fun _ => false
    didCommit := fun _ => false
    isInProgress := fun _ => false
    multiIsRunning := fun _ _ => false
    multiUpdateXid := fun _ => 0
    recentXmin := 1
    oldestMultiXactId := 1 }

def c5tuple : HeapTuple :=
  { t_data :=
      { infomask :=
          { xminCommitted := true, xminInvalid := false
            xmaxCommitted := false, xmaxInvalid := false
            xmaxIsMulti := false, xmaxLockOnly := false
            xmaxExclLock := false, xmaxKeyshrLock := false }
        rawXmin := 5, rawXmax := 7, cmin := 0, cmax := 0
        ctid := { blockNumber := 0, offsetNumber := 1 } }
    t_self := { blockNumber := 0, offsetNumber := 1 }
    t_tableOid := 1 }

def c5snap : Snapshot :=
  { snapshot_type := .mvcc, curcid := 1, inSnapshot := fun _ => false }

/-- Witness for C5 at a committed-inserter tuple whose plain deleter (xid 7)
aborted per the oracle: the row is hidden. -/
theorem mvcc_uncommitted_plain_deleter_hidden_witness :
    TVHeapTupleSatisfiesMVCC c5oracle c5tuple c5snap = false :=
  mvcc_uncommitted_plain_deleter_hidden c5oracle c5tuple c5snap rfl rfl rfl rfl
    rfl rfl rfl rfl rfl rfl

/-- C6: for a committed inserter and a committed, non-current, non-lock-only
plain deleter — committed either by hint or, hint unset, confirmed by the
status oracle while not in-progress — `TVHeapTupleSatisfiesUpdate` returns
Deleted when the chain pointer equals the self pointer and Updated when they
differ. -/
theorem update_committed_plain_deleter_chain (o : TxOracle) (t : HeapTuple)
    (curcid : CommandId)
    (h1 : HeapTupleHeaderXminCommitted t.t_data = true)
    (h2 : t.t_data.infomask.xmaxInvalid = false)
    (h3 : HEAP_XMAX_IS_LOCKED_ONLY t.t_data.infomask = false)
    (h4 : t.t_data.infomask.xmaxIsMulti = false)
    (h5 : o.isCurrent t.t_data.rawXmax = false)
    (h6 : t.t_data.infomask.xmaxCommitted = true ∨
      (t.t_data.infomask.xmaxCommitted = false ∧
        o.isInProgress t.t_data.rawXmax = false ∧
        o.didCommit t.t_data.rawXmax = true)) :
    TVHeapTupleSatisfiesUpdate o t curcid =
      if ItemPointerEquals t.t_self t.t_data.ctid then .ok .Deleted
      else .ok .Updated := by
  unfold TVHeapTupleSatisfiesUpdate updateXmaxCheck
  rcases h6 with h6 | ⟨h6, h7, h8⟩
  · cases he : ItemPointerEquals t.t_self t.t_data.ctid <;>
      simp [h1, h2, h3, h6, he]
  · cases he : ItemPointerEquals t.t_self t.t_data.ctid <;>
      simp [h1, h2, h3, h4, h5, h6, h7, h8, he]

def c6oracle : TxOracle :=
  { isCurrent := fun _ => false
    didCommit := fun _ => true
    isInProgress := fun _ => false
    multiIsRunning := fun _ _ => false
    multiUpdateXid := fun _ => 0
    recentXmin := 1
    oldestMultiXactId := 1 }

def c6tuple : HeapTuple :=
  { t_data :=
      { infomask :=
          { xminCommitted := true, xminInvalid := false
            xmaxCommitted := true, xmaxInvalid := false
            xmaxIsMulti := false, xmaxLockOnly := false
            xmaxExclLock := false, xmaxKeyshrLock := false }
        rawXmin := 5, rawXmax := 7, cmin := 0, cmax := 0
        ctid := { blockNumber := 0, offsetNumber := 1 } }
    t_self := { blockNumber := 0, offsetNumber := 1 }
    t_tableOid := 1 }

/-- Witness for C6 at a committed plain-deleter tuple whose chain pointer
still equals its self pointer. -/
theorem update_committed_plain_deleter_chain_witness :
    TVHeapTupleSatisfiesUpdate c6oracle c6tuple 1 =
      if ItemPointerEquals c6tuple.t_self c6tuple.t_data.ctid then
        Except.ok TMResult.Deleted
      else Except.ok TMResult.Updated :=
  update_committed_plain_deleter_chain c6oracle c6tuple 1 rfl rfl rfl rfl rfl
    (Or.inl rfl)

/-- C7: `tv_heapam_relation_set_new_filenode` raises the feature-not-supported
error exactly when the persistence class is not TEMP; on TEMP it succeeds,
writes `RecentXmin` — the oracle horizon that is ≤ every in-progress xid —
into the freeze-xid output and the oldest in-use multixact id into the
min-multi output. -/
theorem set_new_filenode_spec (o : TxOracle) (rnode : RelFileNode)
    (p : Persistence) (st : SMgrState)
    (hrx : ∀ x, o.isInProgress x = true → o.recentXmin ≤ x) :
    ((tv_heapam_relation_set_new_filenode o rnode p st).1 =
        .error .featureNotSupported ↔ p ≠ .temp) ∧
    (p = .temp →
      (tv_heapam_relation_set_new_filenode o rnode p st).1 = .ok () ∧
      (tv_heapam_relation_set_new_filenode o rnode p st).2.freezeXid =
        some o.recentXmin ∧
      (tv_heapam_relation_set_new_filenode o rnode p st).2.minmulti =
        some o.oldestMultiXactId ∧
      ∀ x, o.isInProgress x = true →
        ∃ f, (tv_heapam_relation_set_new_filenode o rnode p st).2.freezeXid =
          some f ∧ f ≤ x) := by
  cases p with
  | temp =>
    exact ⟨by simp [tv_heapam_relation_set_new_filenode],
      fun _ => ⟨rfl, rfl, rfl, fun x hx => ⟨o.recentXmin, rfl, hrx x hx⟩⟩⟩
  | unlogged =>
    exact ⟨by simp [tv_heapam_relation_set_new_filenode], fun h => by cases h⟩
  | permanent =>
    exact ⟨by simp [tv_heapam_relation_set_new_filenode], fun h => by cases h⟩

def c7oracle : TxOracle :=
  { isCurrent := fun _ => false
    didCommit := fun _ => false
    isInProgress := fun _ => false
    multiIsRunning := fun _ _ => false
    multiUpdateXid := fun _ => 0
    recentXmin := 3
    oldestMultiXactId := 2 }

def c7rnode : RelFileNode := { spcNode := 1, dbNode := 1, relNode := 42 }

def c7state : SMgrState :=
  { freezeXid := none, minmulti := none, createdStorage := [], initForks := [] }

/-- Witness for C7: creating TEMP storage succeeds and writes the two oracle
horizons into the output parameters. -/
theorem set_new_filenode_spec_witness :
    (tv_heapam_relation_set_new_filenode c7oracle c7rnode .temp c7state).1 =
      .ok () ∧
    (tv_heapam_relation_set_new_filenode c7oracle c7rnode .temp c7state).2.freezeXid =
      some c7oracle.recentXmin ∧
    (tv_heapam_relation_set_new_filenode c7oracle c7rnode .temp c7state).2.minmulti =
      some c7oracle.oldestMultiXactId :=
  have h := (set_new_filenode_spec c7oracle c7rnode .temp c7state
    (fun _ hx => nomatch hx)).2 rfl
  ⟨h.1, h.2.1, h.2.2.1⟩

/-- C8: when the inserter-committed hint bit is set and the xmin is frozen,
`TVHeapTupleSatisfiesMVCC` skips the snapshot in-progress check on the
inserter entirely and the verdict is exactly the xmax evaluation, whose
arguments contain no xmin field. -/
theorem mvcc_frozen_inserter_skips_snapshot (o : TxOracle) (t : HeapTuple)
    (s : Snapshot)
    (h1 : HeapTupleHeaderXminCommitted t.t_data = true)
    (h2 : HeapTupleHeaderXminFrozen t.t_data = true) :
    TVHeapTupleSatisfiesMVCC o t s =
      mvccXmaxCheck o t.t_data.infomask t.t_data.rawXmax t.t_data.cmax s := by
  unfold TVHeapTupleSatisfiesMVCC
  simp [h1, h2]

def c8oracle : TxOracle :=
  { isCurrent := fun _ => false
    didCommit := fun _ => false
    isInProgress := fun _ => false
    multiIsRunning := fun _ _ => false
    multiUpdateXid := fun _ => 0
    recentXmin := 1
    oldestMultiXactId := 1 }

def c8tuple : HeapTuple :=
  { t_data :=
      { infomask :=
          { xminCommitted := true, xminInvalid := true
            xmaxCommitted := false, xmaxInvalid := true
            xmaxIsMulti := false, xmaxLockOnly := false
            xmaxExclLock := false, xmaxKeyshrLock := false }
        rawXmin := 5, rawXmax := 0, cmin := 0, cmax := 0
        ctid := { blockNumber := 0, offsetNumber := 1 } }
    t_self := { blockNumber := 0, offsetNumber := 1 }
    t_tableOid := 1 }

def c8snap : Snapshot :=
  { snapshot_type := .mvcc, curcid := 1, inSnapshot := fun _ => true }

/-- Witness for C8: a frozen tuple under a snapshot that counts every xid as
in-progress is still decided by the deleter field alone. -/
theorem mvcc_frozen_inserter_skips_snapshot_witness :
    TVHeapTupleSatisfiesMVCC c8oracle c8tuple c8snap =
      mvccXmaxCheck c8oracle c8tuple.t_data.infomask c8tuple.t_data.rawXmax
        c8tuple.t_data.cmax c8snap :=
  mvcc_frozen_inserter_skips_snapshot c8oracle c8tuple c8snap rfl rfl

/-- C9: with a committed inserter, neither xmax hint set, the multi bit set
and the locked-upgraded pattern, `TVHeapTupleSatisfiesUpdate` returns Ok for
every oracle — in particular whatever the multixact running-member oracle
would answer. -/
theorem update_locked_upgraded_multi_ok (o : TxOracle) (t : HeapTuple)
    (curcid : CommandId)
    (h1 : HeapTupleHeaderXminCommitted t.t_data = true)
    (h2 : t.t_data.infomask.xmaxInvalid = false)
    (h3 : t.t_data.infomask.xmaxCommitted = false)
    (h4 : t.t_data.infomask.xmaxIsMulti = true)
    (h5 : HEAP_LOCKED_UPGRADED t.t_data.infomask = true) :
    TVHeapTupleSatisfiesUpdate o t curcid = .ok .Ok := by
  unfold TVHeapTupleSatisfiesUpdate updateXmaxCheck
  simp [h1, h2, h3, h4, h5]

def c9oracle : TxOracle :=
  { isCurrent := fun _ => false
    didCommit := fun _ => false
    isInProgress := fun _ => true
    multiIsRunning := fun _ _ => true
    multiUpdateXid := fun _ => 9
    recentXmin := 1
    oldestMultiXactId := 1 }

def c9tuple : HeapTuple :=
  { t_data :=
      { infomask :=
          { xminCommitted := true, xminInvalid := false
            xmaxCommitted := false, xmaxInvalid := false
            xmaxIsMulti := true, xmaxLockOnly := true
            xmaxExclLock := false, xmaxKeyshrLock := false }
        rawXmin := 5, rawXmax := 7, cmin := 0, cmax := 0
        ctid := { blockNumber := 0, offsetNumber := 1 } }
    t_self := { blockNumber := 0, offsetNumber := 1 }
    t_tableOid := 1 }

/-- Witness for C9: even with a multixact oracle that reports running members
for every multi, a locked-upgraded xmax yields Ok. -/
theorem update_locked_upgraded_multi_ok_witness :
    TVHeapTupleSatisfiesUpdate c9oracle c9tuple 1 = .ok .Ok :=
  update_locked_upgraded_multi_ok c9oracle c9tuple 1 rfl rfl rfl rfl rfl

/-- C10: for every non-TEMP persistence class
`tv_heapam_relation_set_new_filenode` returns the feature-not-supported error
with the state unchanged: the two output parameters are untouched and no
storage creation is recorded. -/
theorem set_new_filenode_error_no_effect (o : TxOracle) (rnode : RelFileNode)
    (p : Persistence) (st : SMgrState) (h : p ≠ .temp) :
    tv_heapam_relation_set_new_filenode o rnode p st =
      (.error .featureNotSupported, st) := by
  unfold tv_heapam_relation_set_new_filenode
  simp [h]

def c10oracle : TxOracle :=
  { isCurrent := fun _ => false
    didCommit := fun _ => false
    isInProgress := fun _ => false
    multiIsRunning := fun _ _ => false
    multiUpdateXid := fun _ => 0
    recentXmin := 3
    oldestMultiXactId := 2 }

def c10rnode : RelFileNode := { spcNode := 1, dbNode := 1, relNode := 43 }

def c10state : SMgrState :=
  { freezeXid := none, minmulti := none, createdStorage := [], initForks := [] }

/-- Witness for C10: requesting PERMANENT persistence fails and leaves the
empty storage-manager state intact, outputs unwritten. -/
theorem set_new_filenode_error_no_effect_witness :
    tv_heapam_relation_set_new_filenode c10oracle c10rnode .permanent c10state =
      (.error .featureNotSupported, c10state) :=
  set_new_filenode_error_no_effect c10oracle c10rnode .permanent c10state
    (by decide)

end TV
